import Mathlib

/-!
# Verification of the `Symbol` identifier and its host-binding layer

This development embeds, in Lean 4, the behavioural surface of the
`Symbol` identifier type as it is exposed through the host-binding
fragment `nautilus_core/model/src/python/identifiers/symbol.rs`.

The binding fragment itself provides: the checked constructor entry
points (`py_new`, `py_from_str`), the sentinel constructor
(`_safe_constructor`), the pickling protocol (`__getstate__`,
`__setstate__`, `__reduce__`), rich comparison (`__richcmp__`), hashing
(`__hash__`), and the read-only accessors (`value`, `is_composite`,
`root`).  The core `Symbol` type (its validation rules, `set_inner`,
`From<&str>`, `root`/`is_composite`) and the host object machinery
(extraction of typed values from dynamic host objects) live outside this
fragment; those parts are modelled from the specification, and each such
definition says so in its doc comment.
-/

set_option autoImplicit false

namespace NautilusSymbol

/-- Modelled from the spec: the single error kind `ValidationError`,
raised only at checked construction, "carrying the rejected value and
the violated constraint (empty input, length under minimum, length over
maximum, or disallowed format)".  The concrete error type lives in the
core model crate, outside this fragment. -/
inductive ValidationError where
  | tooShort (value : String)
  | tooLong (value : String)
  | badFormat (value : String)
deriving DecidableEq, Repr

/-- Host-visible errors: validation failures surfaced as `ValueError`,
and host-side extraction failures (`TypeError`), as raised by the
binding machinery. -/
inductive PyErr where
  | valueError (e : ValidationError)
  | typeError
deriving DecidableEq, Repr

/-- Modelled from the spec: `to_pyvalue_err` (from the core utility
crate, outside this fragment) converts a native `ValidationError` into a
host `ValueError`. -/
def to_pyvalue_err (e : ValidationError) : PyErr :=
  PyErr.valueError e

/-- The `Symbol` identifier: "an immutable, validated, string-backed
identifier"; its sole state is the canonical string `value`. -/
structure Symbol where
  value : String
deriving DecidableEq, Repr

/-- Modelled from the spec: the domain-defined minimum length of a
`Symbol` value is 1 (a `Symbol` is "a non-empty textual token"). -/
def MIN_LEN : Nat := 1

/-- `to_string()` "returns exactly `value` (identity mapping; no
decoration)". -/
def Symbol.to_string (self : Symbol) : String :=
  self.value

/-- Modelled from the spec: `Symbol::new_checked` lives in the core
model crate, outside this fragment.  It validates the input length
against the inclusive bound `[MIN_LEN, MAX_LEN]` (the exact `MAX_LEN`
is system-fixed but not given, so it is a parameter here) together with
any additional domain format rule (a parameter `fmt`), and on success
returns a `Symbol` "holding the exact input string unmodified (no
case-folding, no trimming)". -/
def new_checked (maxLen : Nat) (fmt : String → Bool) (value : String) :
    Except ValidationError Symbol :=
  if value.length < MIN_LEN then Except.error (ValidationError.tooShort value)
  else if maxLen < value.length then Except.error (ValidationError.tooLong value)
  else if fmt value then Except.ok ⟨value⟩
  else Except.error (ValidationError.badFormat value)

/-- The `__new__` binding: `Self::new_checked(value).map_err(to_pyvalue_err)`. -/
def py_new (maxLen : Nat) (fmt : String → Bool) (value : String) :
    Except PyErr Symbol :=
  (new_checked maxLen fmt value).mapError to_pyvalue_err

/-- The `from_str` binding: `Self::new_checked(value).map_err(to_pyvalue_err)`. -/
def py_from_str (maxLen : Nat) (fmt : String → Bool) (value : String) :
    Except PyErr Symbol :=
  (new_checked maxLen fmt value).mapError to_pyvalue_err

/-- Modelled from the spec: `From<&str> for Symbol` (the unchecked
constructor used by `_safe_constructor`) lives in the core model crate,
outside this fragment; per the spec's `unchecked_default`, it wraps the
given string without validation. -/
def Symbol.fromStrUnchecked (s : String) : Symbol :=
  ⟨s⟩

/-- The `_safe_constructor` binding: `Self::from("NULL")`. -/
def safe_constructor : Symbol :=
  Symbol.fromStrUnchecked "NULL"

/-- Modelled from the spec: `Symbol::set_inner` lives in the core model
crate, outside this fragment; per the spec, the restore-state path
"overwrites the instance's `value` field unconditionally and without
re-validation". -/
def Symbol.set_inner (self : Symbol) (s : String) : Symbol :=
  { self with value := s }

/-- A dynamic host object, as far as the binding layer inspects one:
strings, integers, tuples, `Symbol` instances, and an opaque rest. -/
inductive PyObj where
  | str (s : String)
  | int (n : Int)
  | tuple (xs : List PyObj)
  | symbol (s : Symbol)
  | none

/-- Modelled from the spec: the host machinery's extraction of a
one-element tuple of a string (`state.extract::<(&PyString,)>`), which
succeeds exactly on a one-element tuple whose sole element is a string
and otherwise raises a host `TypeError`. -/
def extractTuple1Str : PyObj → Except PyErr String
  | PyObj.tuple [PyObj.str s] => Except.ok s
  | _ => Except.error PyErr.typeError

/-- Whether a host object is a one-element tuple whose sole element is a
string. -/
def isTuple1Str : PyObj → Bool
  | PyObj.tuple [PyObj.str _] => true
  | _ => false

/-- Modelled from the spec: the host machinery's coercion of a dynamic
operand into a `Symbol` (`other.extract::<Self>(py)`), which succeeds
exactly on `Symbol` instances. -/
def extractSymbol : PyObj → Option Symbol
  | PyObj.symbol s => some s
  | _ => Option.none

/-- The `__setstate__` binding: extract a `(&PyString,)` from the state
object (failing with a host error and leaving the value untouched when
the state has any other shape), then `set_inner` with the extracted
string.  The mutable receiver is embedded as explicit state passing:
the result pairs the host-visible outcome with the post-call `Symbol`. -/
def Symbol.setstate (self : Symbol) (state : PyObj) :
    Except PyErr Unit × Symbol :=
  match extractTuple1Str state with
  | Except.ok s => (Except.ok (), self.set_inner s)
  | Except.error e => (Except.error e, self)

/-- The `__getstate__` binding: `(self.to_string(),)`. -/
def Symbol.getstate (self : Symbol) : PyObj :=
  PyObj.tuple [PyObj.str self.to_string]

/-- The host comparison operators passed to `__richcmp__`. -/
inductive CompareOp where
  | lt | le | eq | ne | gt | ge
deriving DecidableEq, Repr

/-- The outcome of `__richcmp__`: a boolean, or the host's
`NotImplemented` singleton. -/
inductive RichcmpResult where
  | bool (b : Bool)
  | notImplemented
deriving DecidableEq, Repr

/-- Modelled from the spec (invariant I2): `PartialEq` on the core
`Symbol` lives outside this fragment; "two Symbols are equal iff their
canonical strings are byte-identical". -/
def Symbol.beq (self other : Symbol) : Bool :=
  self.value == other.value

/-- The `__richcmp__` binding: try to extract a `Symbol` from the
operand; on success answer `==`/`!=` by value equality and every other
operator with `NotImplemented`; when extraction fails answer
`NotImplemented` regardless of the operator. -/
def Symbol.richcmp (self : Symbol) (other : PyObj) (op : CompareOp) :
    RichcmpResult :=
  match extractSymbol other with
  | some o =>
    match op with
    | CompareOp.eq => RichcmpResult.bool (self.beq o)
    | CompareOp.ne => RichcmpResult.bool (!(self.beq o))
    | _ => RichcmpResult.notImplemented
  | Option.none => RichcmpResult.notImplemented

/-- Modelled from the spec: `__hash__` feeds `value` to the process
default hasher; the algorithm is free but must be a deterministic
function of `value` alone ("a stable hash over `value`, consistent with
`equals`").  Embedded as a fixed deterministic 64-bit string fold. -/
def strHash (s : String) : Nat :=
  s.toList.foldl (fun h c => (h * 31 + c.toNat) % (2 ^ 64)) 5381

/-- The `__hash__` binding, as a function of the sole state `value`. -/
def Symbol.pyHash (self : Symbol) : Nat :=
  strHash self.value

/-- The `value` getter binding: `self.to_string()`. -/
def Symbol.py_value (self : Symbol) : String :=
  self.to_string

/-- The `__str__` binding: `self.to_string()`. -/
def Symbol.py_str (self : Symbol) : String :=
  self.to_string

/-- Modelled from the spec: `Symbol::is_composite` lives in the core
model crate, outside this fragment; true iff `value` contains the
designated structural separator character `.`. -/
def Symbol.is_composite (self : Symbol) : Bool :=
  self.value.toList.contains '.'

/-- Modelled from the spec: `Symbol::root` lives in the core model
crate, outside this fragment; it returns "the substring preceding the
first occurrence of the separator, or the entire `value` when not
composite": the characters of `value` up to (exclusive) the first `.`,
which is all of `value` when no `.` occurs. -/
def Symbol.root (self : Symbol) : String :=
  String.mk (self.value.toList.takeWhile (fun c => c != '.'))

/-! ## Helper lemmas -/

/-- A host object is a one-element string tuple exactly when extraction
succeeds. -/
theorem isTuple1Str_eq_isOk (p : PyObj) : isTuple1Str p = (extractTuple1Str p).isOk := by
  unfold isTuple1Str extractTuple1Str
  split <;> rfl

/-- The only extraction failure the model raises is a `TypeError`. -/
theorem extractTuple1Str_error_eq (p : PyObj) (e : PyErr)
    (h : extractTuple1Str p = Except.error e) : e = PyErr.typeError := by
  unfold extractTuple1Str at h
  split at h
  · exact absurd h (by simp)
  · cases h; rfl

/-! ## Claims -/

/-- C1: for every string `s` whose length lies in `[MIN_LEN, MAX_LEN]`
and which satisfies the format rule, the checked constructor binding
`py_new` succeeds, and the resulting `Symbol`'s canonical string is
exactly `s` — no case-folding or trimming. -/
theorem py_new_accepts_valid (maxLen : Nat) (fmt : String → Bool) (s : String)
    (h1 : MIN_LEN ≤ s.length) (h2 : s.length ≤ maxLen) (h3 : fmt s = true) :
    py_new maxLen fmt s = Except.ok ⟨s⟩ ∧ (Symbol.mk s).to_string = s := by
  refine ⟨?_, rfl⟩
  unfold py_new new_checked
  rw [if_neg (Nat.not_lt.mpr h1), if_neg (Nat.not_lt.mpr h2), if_pos h3]
  rfl

/-- Witness for C1 at `s = "AAPL"`, `MAX_LEN = 36`, trivial format rule. -/
theorem py_new_accepts_valid_witness :
    MIN_LEN ≤ "AAPL".length ∧ "AAPL".length ≤ 36
    ∧ (py_new 36 (fun _ => true) "AAPL" = Except.ok ⟨"AAPL"⟩
       ∧ (Symbol.mk "AAPL").to_string = "AAPL") :=
  ⟨by decide, by decide, py_new_accepts_valid 36 (fun _ => true) "AAPL" (by decide) (by decide) rfl⟩

/-- C2: for every string `s` with length 0 or length above `MAX_LEN`,
the checked constructor binding fails with a `ValidationError` surfaced
as a host `ValueError`; no truncation or other silent correction. -/
theorem py_new_rejects_invalid_length (maxLen : Nat) (fmt : String → Bool) (s : String)
    (h : s.length = 0 ∨ maxLen < s.length) :
    ∃ e, py_new maxLen fmt s = Except.error (PyErr.valueError e) := by
  unfold py_new new_checked MIN_LEN
  rcases h with h | h
  · rw [if_pos (by omega : s.length < 1)]
    exact ⟨_, rfl⟩
  · rw [if_neg (by omega : ¬ s.length < 1), if_pos h]
    exact ⟨_, rfl⟩

/-- Witness for C2 at the empty string, `MAX_LEN = 36`. -/
theorem py_new_rejects_invalid_length_witness :
    ("".length = 0 ∨ 36 < "".length)
    ∧ ∃ e, py_new 36 (fun _ => true) "" = Except.error (PyErr.valueError e) :=
  ⟨Or.inl rfl, py_new_rejects_invalid_length 36 (fun _ => true) "" (Or.inl rfl)⟩

/-- C3: for Symbols `a` and `b`, the host equality comparison answers
exactly whether their canonical strings are byte-identical, and equal
Symbols have equal `__hash__` results. -/
theorem richcmp_eq_and_hash_consistent (a b : Symbol) :
    a.richcmp (PyObj.symbol b) CompareOp.eq = RichcmpResult.bool (a.to_string == b.to_string)
    ∧ (a.richcmp (PyObj.symbol b) CompareOp.eq = RichcmpResult.bool true → a.pyHash = b.pyHash) := by
  constructor
  · rfl
  · intro h
    simp [Symbol.richcmp, extractSymbol, Symbol.beq] at h
    cases a; cases b; simp_all [Symbol.pyHash]

/-- Witness for C3 at `a = b = Symbol "AAPL"`. -/
theorem richcmp_eq_and_hash_consistent_witness :
    (Symbol.mk "AAPL").richcmp (PyObj.symbol ⟨"AAPL"⟩) CompareOp.eq = RichcmpResult.bool true
    ∧ (Symbol.mk "AAPL").pyHash = (Symbol.mk "AAPL").pyHash :=
  ⟨by decide, (richcmp_eq_and_hash_consistent ⟨"AAPL"⟩ ⟨"AAPL"⟩).2 (by decide)⟩

/-- C4: for every Symbol `x`, the two-phase reconstruction described by
`__reduce__` — the safe-default constructor with no arguments, then
`__setstate__` with `x.__getstate__()`'s one-element state tuple —
succeeds and yields a Symbol equal to `x` with the same canonical
string. -/
theorem reduce_roundtrip (x : Symbol) :
    (Symbol.setstate safe_constructor x.getstate).1 = Except.ok ()
    ∧ (Symbol.setstate safe_constructor x.getstate).2 = x
    ∧ ((Symbol.setstate safe_constructor x.getstate).2).richcmp
        (PyObj.symbol x) CompareOp.eq = RichcmpResult.bool true
    ∧ ((Symbol.setstate safe_constructor x.getstate).2).to_string = x.to_string := by
  cases x with
  | mk v =>
    refine ⟨by rfl, by rfl, ?_, by rfl⟩
    simp [Symbol.setstate, Symbol.getstate, extractTuple1Str, Symbol.set_inner,
          Symbol.richcmp, extractSymbol, Symbol.beq, Symbol.to_string]

/-- C5: for every Symbol and every string `s` whatsoever, restoring
state from the one-element tuple `(s,)` succeeds with no validation and
fully replaces the previous value with exactly `s`. -/
theorem setstate_unconditional_overwrite (sym : Symbol) (s : String) :
    Symbol.setstate sym (PyObj.tuple [PyObj.str s]) = (Except.ok (), ⟨s⟩)
    ∧ (Symbol.mk s).to_string = s :=
  ⟨rfl, rfl⟩

/-- C6: the host comparison supports only equality and inequality: every
relational operator yields `NotImplemented`, and every operand that is
not coercible to a Symbol also yields `NotImplemented`, never `false`. -/
theorem richcmp_notImplemented_cases (a : Symbol) (other : PyObj) (op : CompareOp)
    (h : op = CompareOp.lt ∨ op = CompareOp.le ∨ op = CompareOp.gt ∨ op = CompareOp.ge
         ∨ extractSymbol other = Option.none) :
    a.richcmp other op = RichcmpResult.notImplemented := by
  rcases h with h | h | h | h | h
  · subst h; cases hE : extractSymbol other <;> simp [Symbol.richcmp, hE]
  · subst h; cases hE : extractSymbol other <;> simp [Symbol.richcmp, hE]
  · subst h; cases hE : extractSymbol other <;> simp [Symbol.richcmp, hE]
  · subst h; cases hE : extractSymbol other <;> simp [Symbol.richcmp, hE]
  · unfold Symbol.richcmp
    rw [h]

/-- Witness for C6: `<` against another Symbol, and `==` against an
integer operand, both answer `NotImplemented`. -/
theorem richcmp_notImplemented_cases_witness :
    (Symbol.mk "AAPL").richcmp (PyObj.symbol ⟨"MSFT"⟩) CompareOp.lt
      = RichcmpResult.notImplemented
    ∧ (Symbol.mk "AAPL").richcmp (PyObj.int 0) CompareOp.eq
      = RichcmpResult.notImplemented :=
  ⟨richcmp_notImplemented_cases ⟨"AAPL"⟩ (PyObj.symbol ⟨"MSFT"⟩) CompareOp.lt (Or.inl rfl),
   richcmp_notImplemented_cases ⟨"AAPL"⟩ (PyObj.int 0) CompareOp.eq
     (Or.inr (Or.inr (Or.inr (Or.inr rfl))))⟩

/-- C7: the `from_str` factory binding returns exactly the same result
as the checked constructor binding on every input. -/
theorem py_from_str_eq_py_new (maxLen : Nat) (fmt : String → Bool) (s : String) :
    py_from_str maxLen fmt s = py_new maxLen fmt s :=
  rfl

/-- C8: with separator `.`, the Symbol `"AAPL.XNAS"` is composite with
root `"AAPL"`, and the Symbol `"AAPL"` is not composite and is its own
root. -/
theorem composite_root_examples :
    (Symbol.mk "AAPL.XNAS").is_composite = true
    ∧ (Symbol.mk "AAPL.XNAS").root = "AAPL"
    ∧ (Symbol.mk "AAPL").is_composite = false
    ∧ (Symbol.mk "AAPL").root = "AAPL" := by
  decide

/-- C9: the safe-default constructor yields the sentinel Symbol whose
canonical string is `"NULL"`; that string passes validation (whenever
`MAX_LEN ≥ 4` and the format rule admits it), and the sentinel is
indistinguishable — under construction, equality and hashing — from a
Symbol validly constructed from `"NULL"`. -/
theorem safe_constructor_null_sentinel (maxLen : Nat) (fmt : String → Bool)
    (h1 : 4 ≤ maxLen) (h2 : fmt "NULL" = true) :
    safe_constructor.to_string = "NULL"
    ∧ new_checked maxLen fmt "NULL" = Except.ok safe_constructor
    ∧ safe_constructor.richcmp (PyObj.symbol ⟨"NULL"⟩) CompareOp.eq = RichcmpResult.bool true
    ∧ safe_constructor.pyHash = (Symbol.mk "NULL").pyHash := by
  have hl : "NULL".length = 4 := by decide
  refine ⟨rfl, ?_, by decide, rfl⟩
  unfold new_checked MIN_LEN
  rw [if_neg (by omega : ¬ "NULL".length < 1), if_neg (by omega : ¬ maxLen < "NULL".length),
      if_pos h2]
  rfl

/-- Witness for C9 at `MAX_LEN = 36`, trivial format rule. -/
theorem safe_constructor_null_sentinel_witness :
    4 ≤ 36
    ∧ (safe_constructor.to_string = "NULL"
       ∧ new_checked 36 (fun _ => true) "NULL" = Except.ok safe_constructor
       ∧ safe_constructor.richcmp (PyObj.symbol ⟨"NULL"⟩) CompareOp.eq = RichcmpResult.bool true
       ∧ safe_constructor.pyHash = (Symbol.mk "NULL").pyHash) :=
  ⟨by decide, safe_constructor_null_sentinel 36 (fun _ => true) (by decide) rfl⟩

/-- C10: for every Symbol and every state object that is not a
one-element tuple holding a string, `__setstate__` fails with a host
error and the Symbol's value is unchanged by the failed call. -/
theorem setstate_rejects_bad_state (sym : Symbol) (state : PyObj)
    (h : isTuple1Str state = false) :
    Symbol.setstate sym state = (Except.error PyErr.typeError, sym) := by
  rw [isTuple1Str_eq_isOk] at h
  unfold Symbol.setstate
  cases hE : extractTuple1Str state with
  | ok s => rw [hE] at h; simp [Except.isOk, Except.toBool] at h
  | error e => rw [extractTuple1Str_error_eq state e hE]

/-- Witness for C10 at an integer state object. -/
theorem setstate_rejects_bad_state_witness :
    isTuple1Str (PyObj.int 0) = false
    ∧ Symbol.setstate ⟨"AAPL"⟩ (PyObj.int 0) = (Except.error PyErr.typeError, ⟨"AAPL"⟩) :=
  ⟨rfl, setstate_rejects_bad_state ⟨"AAPL"⟩ (PyObj.int 0) rfl⟩

end NautilusSymbol
